import Mathlib

/-!
Verification development for the blind-peer CLI supervisor (src/bin.js).
The JavaScript supervisor is shallowly embedded: pure computations become
Lean functions, the straight-line async main body becomes an explicit
step-trace function, throwing operations return Except, and the external
collaborators (hypercore-id-encoding, b4a, parseInt, graceful-goodbye)
are modelled from their documented interfaces.
-/

deriving instance DecidableEq for Except

namespace BlindPeerCli

/-- Errors raised by the embedded JavaScript operations of src/bin.js. -/
inductive Err where
  | invalidKeyEncoding : Err
  | typeError : Err
  | unsupportedAutodiscovery : Err
  | aliasTooLong : Err
  deriving DecidableEq, Repr

/-- Pino log levels used by src/bin.js. -/
inductive Level where
  | debug : Level
  | info : Level
  | warn : Level
  | error : Level
  deriving DecidableEq, Repr

/-- One structured log line produced by the pino logger. -/
structure LogRecord where
  level : Level
  msg : List Char
  deriving DecidableEq, Repr

/-- JavaScript truthiness of an optional string value: undefined and the
empty string are falsy, every non-empty string is truthy. -/
def jsTruthyStr : Option (List Char) → Bool
  | none => false
  | some [] => false
  | some (_ :: _) => true

/-- Decimal digit test for the parseInt model. -/
def isDigitChar (c : Char) : Bool := (48 ≤ c.toNat) && (c.toNat ≤ 57)

/-- Numeric value of a decimal digit character. -/
def digitVal (c : Char) : Nat := c.toNat - 48

/-- Longest prefix of decimal digits, interpreted in base 10; none when that
prefix is empty. -/
def parseDigits (s : List Char) : Option Nat :=
  let ds := s.takeWhile isDigitChar
  if ds = [] then none
  else some (ds.foldl (fun acc c => 10 * acc + digitVal c) 0)

/-- Model of the JavaScript parseInt builtin in its decimal regime: skip
leading spaces, accept one optional sign, then read the longest prefix of
decimal digits; with no digit the result is NaN, modelled as none. -/
def jsParseInt (s : List Char) : Option Int :=
  match s.dropWhile (fun c => c = ' ') with
  | '-' :: rest => (parseDigits rest).map (fun n => -(n : Int))
  | '+' :: rest => (parseDigits rest).map (fun n => (n : Int))
  | rest => (parseDigits rest).map (fun n => (n : Int))

/-- Lower-case hex digit characters, as produced by b4a.toString with hex. -/
def hexDigits : List Char := ("0123456789abcdef").toList

/-- Hex digit character for a value below 16. -/
def hexDigit (n : Nat) : Char := hexDigits.getD n '0'

/-- Model of b4a.toString(buffer, hex): two lower-case hex digits per byte. -/
def hexEncode (bs : List Nat) : List Char :=
  bs.flatMap (fun b => [hexDigit (b / 16), hexDigit (b % 16)])

/-- Numeric value of one hex digit character, lower-case letters only. -/
def hexVal (c : Char) : Option Nat :=
  if (48 ≤ c.toNat) && (c.toNat ≤ 57) then some (c.toNat - 48)
  else if (97 ≤ c.toNat) && (c.toNat ≤ 102) then some (c.toNat - 87)
  else none

/-- Decode a hex string into bytes; fails on odd length or a non-hex digit. -/
def hexDecode : List Char → Option (List Nat)
  | [] => some []
  | [_] => none
  | c1 :: c2 :: rest =>
    match hexVal c1, hexVal c2, hexDecode rest with
    | some h, some l, some bs => some ((16 * h + l) :: bs)
    | _, _, _ => none

/-- The z-base-32 alphabet used by hypercore id encoding. -/
def z32Alphabet : List Char := ("ybndrfg8ejkmcpqxot1uwisza345h769").toList

/-- Most-significant-bit-first bits of one byte. -/
def byteToBits (b : Nat) : List Bool :=
  [b.testBit 7, b.testBit 6, b.testBit 5, b.testBit 4,
   b.testBit 3, b.testBit 2, b.testBit 1, b.testBit 0]

/-- Most-significant-bit-first bit stream of a byte string. -/
def toBits (bs : List Nat) : List Bool := bs.flatMap byteToBits

/-- Split a bit stream into groups of five bits; the final group may be
shorter (z-base-32 right-pads it with zero bits when computing its value). -/
def chunks5 : List Bool → List (List Bool)
  | [] => []
  | [a] => [[a]]
  | [a, b] => [[a, b]]
  | [a, b, c] => [[a, b, c]]
  | [a, b, c, d] => [[a, b, c, d]]
  | a :: b :: c :: d :: e :: rest => [a, b, c, d, e] :: chunks5 rest

/-- Value of one z-base-32 group: five bits, MSB first, right-padded with
zero bits. -/
def chunkVal (c : List Bool) : Nat :=
  ((c ++ List.replicate 5 false).take 5).foldl
    (fun acc b => 2 * acc + (if b then 1 else 0)) 0

/-- Model of z-base-32 encoding (z32.encode) as used by
hypercore-id-encoding normalize. -/
def z32encode (bs : List Nat) : List Char :=
  (chunks5 (toBits bs)).map (fun c => z32Alphabet.getD (chunkVal c) 'y')

/-- Index of a character in the z-base-32 alphabet; none when absent. -/
def z32CharVal (c : Char) : Option Nat :=
  let i := z32Alphabet.indexOf c
  if i < 32 then some i else none

/-- Collect eight bits at a time into bytes, discarding a trailing partial
group, as z-base-32 decoding of a 52-character key string does. -/
def bitsToBytes : List Bool → List Nat
  | b0 :: b1 :: b2 :: b3 :: b4 :: b5 :: b6 :: b7 :: rest =>
    (List.foldl (fun acc b => 2 * acc + (if b then 1 else 0)) 0
      [b0, b1, b2, b3, b4, b5, b6, b7]) :: bitsToBytes rest
  | _ => []

/-- Model of z-base-32 decoding: every character must belong to the
alphabet; the bit stream is re-grouped into bytes. -/
def z32decode (s : List Char) : Option (List Nat) :=
  match s.mapM z32CharVal with
  | none => none
  | some vals =>
    some (bitsToBytes (vals.flatMap (fun v =>
      [v.testBit 4, v.testBit 3, v.testBit 2, v.testBit 1, v.testBit 0])))

/-- Model of the external hypercore-id-encoding decode: accepts a
64-character hex string or a 52-character z-base-32 string and yields the
32-byte key; anything else, including an absent value as in
decode(undefined), throws an invalid-key error. -/
def idEncDecode : Option (List Char) → Except Err (List Nat)
  | none => Except.error Err.invalidKeyEncoding
  | some s =>
    if s.length = 64 then
      match hexDecode s with
      | some bs => Except.ok bs
      | none => Except.error Err.invalidKeyEncoding
    else if s.length = 52 then
      match z32decode s with
      | some bs => Except.ok bs
      | none => Except.error Err.invalidKeyEncoding
    else Except.error Err.invalidKeyEncoding

/-- Model of hypercore-id-encoding normalize: re-encode a 32-byte key in
z-base-32; an absent or wrongly sized key throws. -/
def idEncNormalize : Option (List Nat) → Except Err (List Char)
  | none => Except.error Err.invalidKeyEncoding
  | some bs =>
    if bs.length = 32 then Except.ok (z32encode bs)
    else Except.error Err.invalidKeyEncoding

/-- Remote stream object as seen by the event handlers: the object itself
or its key field may be absent in a malformed event payload. -/
structure StreamInfo where
  remotePublicKey : Option (List Nat)
  deriving DecidableEq, Repr

/-- Embedding of streamToStr (src/bin.js lines 357-360): renders the remote
public key through idEncNormalize; reading a field of an absent stream or
normalizing an absent key throws. -/
def streamToStr (stream : Option StreamInfo) : Except Err (List Char) :=
  match stream with
  | none => Except.error Err.typeError
  | some st => idEncNormalize st.remotePublicKey

/-- DB record carried by add-new-core and downgrade-announce payloads; the
key or priority fields may be absent in a malformed payload. -/
structure DbRecord where
  key : Option (List Nat)
  priority : Option Int
  announce : Bool
  deriving DecidableEq, Repr

/-- Model of the external hypercore-crypto discoveryKey: a total hash on
buffers producing a 32-byte value that the supervisor only re-encodes,
modelled by padding or truncating the input bytes to length 32; applying it
to an absent key throws, as the underlying crypto call does. -/
def discoveryKey (key : Option (List Nat)) : Except Err (List Nat) :=
  match key with
  | none => Except.error Err.typeError
  | some k => Except.ok ((k ++ List.replicate 32 0).take 32)

/-- Template rendering of an optional integer, as JavaScript renders
undefined inside a template literal. -/
def renderOptInt : Option Int → List Char
  | none => ("undefined").toList
  | some i => (toString i).toList

/-- Template rendering of a boolean. -/
def renderBool (b : Bool) : List Char :=
  if b then ("true").toList else ("false").toList

/-- Embedding of recordToStr (src/bin.js lines 352-355). -/
def recordToStr (record : Option DbRecord) : Except Err (List Char) :=
  match record with
  | none => Except.error Err.typeError
  | some r => do
    let discKey ← discoveryKey r.key
    let dk ← idEncNormalize (some discKey)
    pure (("DB Record for discovery key ").toList ++ dk
      ++ (" with priority: ").toList ++ renderOptInt r.priority
      ++ (". Announcing? ").toList ++ renderBool r.announce)

/-- Rendering of a JavaScript error stack inside a log message; the model
keeps only the error message text. -/
def errStack (e : Err) : List Char :=
  match e with
  | Err.invalidKeyEncoding => ("Error: Invalid key").toList
  | Err.typeError => ("TypeError").toList
  | Err.unsupportedAutodiscovery => ("Error: autobase discovery temp not supported").toList
  | Err.aliasTooLong => ("Error: The Prometheus alias must have length less than 100").toList

/-- Pino rendering of a raw record object passed directly to logger.info;
the model abbreviates the serialized object. -/
def renderRecordObject : Option DbRecord → List Char
  | none => ("undefined").toList
  | some r => ("record object with announce ").toList ++ renderBool r.announce

/-- Payload of the delete-blocked event; the key field may be absent. -/
structure DeleteBlockedPayload where
  key : Option (List Nat)
  deriving DecidableEq, Repr

/-- Embedding of the delete-blocked handler (src/bin.js lines 122-126):
destructures the payload, then renders the peer and the key; there is no
try-catch, so a failure propagates out of the handler. -/
def deleteBlockedHandler (stream : Option StreamInfo)
    (payload : Option DeleteBlockedPayload) : Except Err (List LogRecord) :=
  match payload with
  | none => Except.error Err.typeError
  | some p => do
    let s ← streamToStr stream
    let k ← idEncNormalize p.key
    pure [⟨Level.info, ("Blocked delete-core request from untrusted peer ").toList
      ++ s ++ (" for core ").toList ++ k⟩]

/-- Try block of the add-new-core handler (src/bin.js lines 107-116):
reading announce on an absent record throws, as does either rendering. -/
def addNewCoreTry (record : Option DbRecord) (stream : Option StreamInfo) :
    Except Err (List LogRecord) :=
  match record with
  | none => Except.error Err.typeError
  | some r =>
    if r.announce then do
      let s ← streamToStr stream
      let rs ← recordToStr (some r)
      pure [⟨Level.info, ("add-core request received from peer ").toList ++ s
        ++ (" for record ").toList ++ rs⟩]
    else do
      let s ← streamToStr stream
      let rs ← recordToStr (some r)
      pure [⟨Level.debug, ("add-core request received from peer ").toList ++ s
        ++ (" for record ").toList ++ rs⟩]

/-- Embedding of the add-new-core handler (src/bin.js lines 106-121): the
whole body is wrapped in try-catch, so a rendering failure is logged at
info level instead of propagating out of the handler. -/
def addNewCoreHandler (record : Option DbRecord) (stream : Option StreamInfo) :
    Except Err (List LogRecord) :=
  match addNewCoreTry record stream with
  | Except.ok logs => Except.ok logs
  | Except.error e =>
    Except.ok [⟨Level.info, ("Invalid add-core request received: ").toList ++ errStack e⟩,
      ⟨Level.info, renderRecordObject record⟩]

/-- Payload of the downgrade-announce event. -/
structure DowngradePayload where
  record : Option DbRecord
  remotePublicKey : Option (List Nat)
  deriving DecidableEq, Repr

/-- Embedding of the downgrade-announce handler (src/bin.js lines 138-146):
the parameter destructuring happens before the try block, so an absent
payload object still throws; failures inside the body are caught and
logged at error level. -/
def downgradeAnnounceHandler (payload : Option DowngradePayload) :
    Except Err (List LogRecord) :=
  match payload with
  | none => Except.error Err.typeError
  | some p =>
    match (do
      let rk ← idEncNormalize p.remotePublicKey
      let rs ← recordToStr p.record
      pure [⟨Level.info, ("Downgraded announce for peer ").toList ++ rk
        ++ (" because the peer is not trusted (Original: ").toList ++ rs ++ (")").toList⟩] :
      Except Err (List LogRecord)) with
    | Except.ok logs => Except.ok logs
    | Except.error e =>
      Except.ok [⟨Level.error,
        ("Unexpected error while logging downgrade-announce: ").toList ++ errStack e⟩]

/-- Payload of the add-cores-downgrade-announce event. -/
structure AddCoresDowngradePayload where
  remotePublicKey : Option (List Nat)
  deriving DecidableEq, Repr

/-- Embedding of the add-cores-downgrade-announce handler (src/bin.js lines
147-155): destructuring precedes the try block; body failures are caught
and logged at error level. -/
def addCoresDowngradeAnnounceHandler (payload : Option AddCoresDowngradePayload) :
    Except Err (List LogRecord) :=
  match payload with
  | none => Except.error Err.typeError
  | some p =>
    match idEncNormalize p.remotePublicKey with
    | Except.ok rk =>
      Except.ok [⟨Level.info, ("Downgraded announce for peer ").toList ++ rk
        ++ (" because the peer is not trusted)").toList⟩]
    | Except.error e =>
      Except.ok [⟨Level.error,
        ("Unexpected error while logging add-cores-downgrade-announce: ").toList ++ errStack e⟩]

/-- Raw transport endpoint of a remote stream, for address rendering. -/
structure RawStreamAddr where
  remoteHost : List Char
  remotePort : Nat
  deriving DecidableEq, Repr

/-- Stream object of the invalid-request payload. -/
structure FromStream where
  rawStream : Option RawStreamAddr
  remotePublicKey : Option (List Nat)
  deriving DecidableEq, Repr

/-- Requester object of the invalid-request payload; its stream may be
absent in a malformed payload. -/
structure FromObj where
  stream : Option FromStream
  deriving DecidableEq, Repr

/-- Core object carried by the invalid-request payload. -/
structure CoreObj where
  key : Option (List Nat)
  deriving DecidableEq, Repr

/-- Optional-chaining address rendering of src/bin.js line 195: absent
links render as the text undefined, so this part never throws. -/
def renderAddress (stream : Option FromStream) : List Char :=
  match stream with
  | none => ("undefined:undefined").toList
  | some st =>
    match st.rawStream with
    | none => ("undefined:undefined").toList
    | some raw => raw.remoteHost ++ (":").toList ++ (toString raw.remotePort).toList

/-- Embedding of the invalid-request handler (src/bin.js lines 194-201):
the address is rendered with optional chaining, but the accesses to
from.stream.remotePublicKey, core.key and err.stack are unguarded and there
is no try-catch, so a malformed payload throws out of the handler. -/
def invalidRequestHandler (core : Option CoreObj) (err : Option Err)
    (fromObj : Option FromObj) : Except Err (List LogRecord) :=
  match fromObj with
  | none => Except.error Err.typeError
  | some f =>
    let address := renderAddress f.stream
    match f.stream with
    | none => Except.error Err.typeError
    | some st => do
      let remotePubKey ← idEncNormalize st.remotePublicKey
      match core with
      | none => Except.error Err.typeError
      | some c => do
        let key ← idEncNormalize c.key
        match err with
        | none => Except.error Err.typeError
        | some e =>
          pure [⟨Level.warn, ("Received invalid request for core ").toList ++ key
            ++ (" from peer ").toList ++ remotePubKey ++ (" at ").toList ++ address
            ++ (" (").toList ++ errStack e ++ (")").toList⟩]

/-- Peer info object of the swarm-level ban and connection events. -/
structure PeerInfo where
  publicKey : Option (List Nat)
  deriving DecidableEq, Repr

/-- Key rendering used by the swarm ban handler (src/bin.js line 230):
b4a.toString(peerInfo.publicKey, hex), unlike the other handlers, which
render keys through idEncNormalize. -/
def banKeyRender (pk : List Nat) : List Char := hexEncode pk

/-- Embedding of the swarm ban handler (src/bin.js lines 229-231). -/
def banHandler (peerInfo : Option PeerInfo) (err : Option Err) :
    Except Err (List LogRecord) :=
  match peerInfo with
  | none => Except.error Err.typeError
  | some p =>
    match p.publicKey with
    | none => Except.error Err.typeError
    | some pk =>
      match err with
      | none => Except.error Err.typeError
      | some e =>
        Except.ok [⟨Level.warn, ("Banned peer: ").toList ++ banKeyRender pk
          ++ (".").toList ++ errStack e⟩]

/-- Default storage limit in megabytes (src/bin.js line 17). -/
def DEFAULT_STORAGE_LIMIT_MB : Nat := 100000

/-- Embedding of src/bin.js line 80: maxBytes is 1,000,000 times
parseInt(flags.maxStorage or the default). JavaScript falls back to the
default when the flag is absent or the empty string (falsy), converts the
default number to its decimal string for parseInt, and propagates NaN,
modelled as none, when parseInt finds no digit. -/
def maxBytesOf (maxStorage : Option (List Char)) : Option Int :=
  let raw : List Char :=
    if jsTruthyStr maxStorage then maxStorage.getD []
    else (toString DEFAULT_STORAGE_LIMIT_MB).toList
  (jsParseInt raw).map (fun n => 1000000 * n)

/-- Embedding of the prometheus alias resolution (src/bin.js lines
312-318): a truthy supplied alias longer than 99 characters throws; a
falsy alias (absent flag or empty string) is replaced by a default derived
from the node public key and truncated to 99 characters. -/
def resolvePrometheusAlias (scraperAlias : Option (List Char))
    (ownPublicKey : List Nat) : Except Err (List Char) :=
  if jsTruthyStr scraperAlias && decide (99 < (scraperAlias.getD []).length) then
    Except.error Err.aliasTooLong
  else if jsTruthyStr scraperAlias then Except.ok (scraperAlias.getD [])
  else do
    let nk ← idEncNormalize (some ownPublicKey)
    pure ((("blind-peer-").toList ++ nk).take 99)

/-- Parsed command-line flags of src/bin.js (paparam output), with string
values as optional character lists. -/
structure Flags where
  storage : Option (List Char) := none
  port : Option (List Char) := none
  trustedPeer : List (List Char) := []
  debug : Bool := false
  maxStorage : Option (List Char) := none
  autodiscoveryRpcKey : Option (List Char) := none
  autodiscoverySeed : Option (List Char) := none
  autodiscoveryServiceName : Option (List Char) := none
  scraperPublicKey : Option (List Char) := none
  scraperSecret : Option (List Char) := none
  scraperAlias : Option (List Char) := none
  logStreams : Bool := false
  repl : Option (List Char) := none
  autoShutdownMinutes : Option (List Char) := none
  deriving DecidableEq, Repr

/-- Externally observable steps of the supervisor main body, in program
order; replStart records the instrumentation reference handed to the
repl-swarm at the moment the console starts. -/
inductive Step where
  | constructEngine : Step
  | registerShutdownHook : Step
  | replStart : Option Unit → Step
  | engineReady : Step
  | startStreamMonitor : Step
  | engineListen : Step
  | constructInstrumentation : Step
  | instrumentationReady : Step
  | scheduleAutoShutdown : Step
  deriving DecidableEq, Repr

/-- Result of one supervisor startup: the steps reached, the error that
escaped the async main body if any, the byte budget computed for the
engine (none models NaN), and the final value of the instrumentation
variable. -/
structure RunResult where
  trace : List Step
  outcome : Option Err
  budget : Option Int
  finalInstr : Option Unit
  deriving DecidableEq, Repr

/-- Sequential decoding of the trusted-peer keys (src/bin.js line 81); the
first undecodable key throws before the engine is constructed. -/
def idEncDecodeAll : List (List Char) → Except Err (List (List Nat))
  | [] => Except.ok []
  | k :: rest => do
    let b ← idEncDecode (some k)
    let bs ← idEncDecodeAll rest
    pure (b :: bs)

/-- Optional repl console setup of src/bin.js lines 221-226: when the repl
flag is truthy the seed is decoded (which may throw) and the repl-swarm
starts with the current instrumentation variable, which the preceding
straight-line code has initialized to null and never reassigned yet. -/
def replSetup (flags : Flags) : Except Err (List Step) :=
  if jsTruthyStr flags.repl
  then (idEncDecode flags.repl).map (fun _ => [Step.replStart none])
  else Except.ok []

/-- Steps from engine construction through listen (src/bin.js lines
83-271), given the steps contributed by the repl setup. -/
def preListenTrace (flags : Flags) (replSteps : List Step) : List Step :=
  [Step.constructEngine, Step.registerShutdownHook] ++ replSteps
  ++ [Step.engineReady]
  ++ (if flags.logStreams then [Step.startStreamMonitor] else [])
  ++ [Step.engineListen]

/-- Embedding of the async main body of src/bin.js (lines 67-349) as a
step trace. Engine construction, the goodbye registration, the optional
repl console, ready, the optional stream monitor and listen happen in
program order; the autodiscovery guard throws after listen; the scraper
block decodes the scraper keys, resolves the alias and constructs the
instrumentation; finally the auto-shutdown timer is scheduled. The
engine's own lifecycle calls are assumed to succeed, as they belong to the
external collaborator. -/
def run (flags : Flags) (ownPublicKey : List Nat) : RunResult :=
  match idEncDecodeAll flags.trustedPeer with
  | Except.error e => ⟨[], some e, maxBytesOf flags.maxStorage, none⟩
  | Except.ok _ =>
    match replSetup flags with
    | Except.error e =>
      ⟨[Step.constructEngine, Step.registerShutdownHook], some e,
        maxBytesOf flags.maxStorage, none⟩
    | Except.ok replSteps =>
      if jsTruthyStr flags.autodiscoveryRpcKey then
        ⟨preListenTrace flags replSteps, some Err.unsupportedAutodiscovery,
          maxBytesOf flags.maxStorage, none⟩
      else if jsTruthyStr flags.scraperPublicKey then
        match idEncDecode flags.scraperPublicKey with
        | Except.error e =>
          ⟨preListenTrace flags replSteps, some e, maxBytesOf flags.maxStorage, none⟩
        | Except.ok _ =>
          match idEncDecode flags.scraperSecret with
          | Except.error e =>
            ⟨preListenTrace flags replSteps, some e, maxBytesOf flags.maxStorage, none⟩
          | Except.ok _ =>
            match resolvePrometheusAlias flags.scraperAlias ownPublicKey with
            | Except.error e =>
              ⟨preListenTrace flags replSteps, some e, maxBytesOf flags.maxStorage, none⟩
            | Except.ok _ =>
              ⟨preListenTrace flags replSteps
                ++ [Step.constructInstrumentation, Step.instrumentationReady]
                ++ (if jsTruthyStr flags.autoShutdownMinutes
                    then [Step.scheduleAutoShutdown] else []),
                none, maxBytesOf flags.maxStorage, some ()⟩
      else
        ⟨preListenTrace flags replSteps
          ++ (if jsTruthyStr flags.autoShutdownMinutes
              then [Step.scheduleAutoShutdown] else []),
          none, maxBytesOf flags.maxStorage, none⟩

/-- Strict precedence of two steps in a trace, through their first
occurrences. -/
def precedes (t : List Step) (a b : Step) : Prop :=
  a ∈ t ∧ b ∈ t ∧ List.indexOf a t < List.indexOf b t

instance (t : List Step) (a b : Step) : Decidable (precedes t a b) := by
  unfold precedes; infer_instance

/-- Observable events of the shutdown path: close operations are split
into their start and their awaited completion. -/
inductive ShutEvent where
  | logLine : Level → List Char → ShutEvent
  | instrCloseStart : ShutEvent
  | instrCloseEnd : ShutEvent
  | engineCloseStart : ShutEvent
  | engineCloseEnd : ShutEvent
  deriving DecidableEq, Repr

/-- Instructions of the goodbye callback of src/bin.js lines 211-219. -/
inductive ShutInstr where
  | logInfo : List Char → ShutInstr
  | awaitInstrumentationClose : ShutInstr
  | awaitEngineClose : ShutInstr
  deriving DecidableEq, Repr

/-- The goodbye callback registered at src/bin.js lines 211-219, as the
instruction sequence the callback executes given the current value of the
instrumentation variable. -/
def goodbyeCallback (instr : Option Unit) : List ShutInstr :=
  (match instr with
   | some _ => [ShutInstr.logInfo (("Closing instrumentation").toList),
     ShutInstr.awaitInstrumentationClose]
   | none => []) ++
  [ShutInstr.logInfo (("Shutting down blind peer").toList),
   ShutInstr.awaitEngineClose,
   ShutInstr.logInfo (("Shut down blind peer").toList)]

/-- Interpretation of one shutdown instruction as observable events; an
awaited close contributes its start and then its completion before the
next instruction runs. -/
def shutInstrEvents : ShutInstr → List ShutEvent
  | ShutInstr.logInfo s => [ShutEvent.logLine Level.info s]
  | ShutInstr.awaitInstrumentationClose => [ShutEvent.instrCloseStart, ShutEvent.instrCloseEnd]
  | ShutInstr.awaitEngineClose => [ShutEvent.engineCloseStart, ShutEvent.engineCloseEnd]

/-- Event trace of one execution of the goodbye callback. -/
def execGoodbye (instr : Option Unit) : List ShutEvent :=
  (goodbyeCallback instr).flatMap shutInstrEvents

/-- Model of graceful-goodbye delivering a termination signal: the
registered callback runs. -/
def signalShutdown (instr : Option Unit) : List ShutEvent := execGoodbye instr

/-- Strict precedence of two shutdown events in a trace. -/
def shutPrecedes (t : List ShutEvent) (a b : ShutEvent) : Prop :=
  a ∈ t ∧ b ∈ t ∧ List.indexOf a t < List.indexOf b t

instance (t : List ShutEvent) (a b : ShutEvent) : Decidable (shutPrecedes t a b) := by
  unfold shutPrecedes; infer_instance

/-- Embedding of the auto-shutdown delay computation (src/bin.js line 339):
minutes times one plus a fifth of the Math.random draw; the flag string is
coerced to the number m by the multiplication. -/
def autoShutdownDelayMinutes (m r : ℚ) : ℚ := m * (1 + r / 5)

/-- Millisecond argument handed to setTimeout (src/bin.js line 346). -/
def autoShutdownDelayMs (m r : ℚ) : ℚ := autoShutdownDelayMinutes m r * 60 * 1000

/-- Embedding of the auto-shutdown timer callback (src/bin.js lines
342-345): one warn line, then goodbye.exit(), which runs the registered
goodbye callback. -/
def autoShutdownFire (instr : Option Unit) : List ShutEvent :=
  ShutEvent.logLine Level.warn (("Auto-shutdown triggered. Shutting down...").toList)
    :: execGoodbye instr

/-- One UDX raw stream as sampled by the log-streams monitor; the handle
buffers may be absent, in which case rendering them throws inside the
sampling loop. -/
structure RawStream where
  id : Nat
  remoteId : Nat
  wreqsLen : Nat
  wfreeLen : Nat
  handle : Option (List Nat)
  socketHandle : Option (Option (List Nat))
  deriving DecidableEq, Repr

/-- Outstanding-write count of one stream (src/bin.js line 253). -/
def pendingWrites (s : RawStream) : Int := (s.wreqsLen : Int) - (s.wfreeLen : Int)

/-- Rendering of the per-stream warning of src/bin.js lines 256-258; the
serialized stream and socket JSON bodies are abbreviated, and the handle
hex renderings throw when the corresponding buffer is absent, exactly
where b4a.toString would. -/
def renderStreamWarn (s : RawStream) : Except Err LogRecord := do
  let handleHex ← match s.handle with
    | none => Except.error Err.typeError
    | some h => Except.ok (hexEncode h)
  let socketHex ← match s.socketHandle with
    | none => Except.ok (("none").toList)
    | some none => Except.error Err.typeError
    | some (some h) => Except.ok (hexEncode h)
  pure ⟨Level.warn, ("Stream ").toList ++ (toString s.id).toList
    ++ (" (remote id: ").toList ++ (toString s.remoteId).toList
    ++ (") has ").toList ++ (toString (pendingWrites s)).toList
    ++ (" pending writes: hex streamhandle: ").toList ++ handleHex
    ++ (" hex socket handle: ").toList ++ socketHex⟩

/-- The per-stream warning produced for a well-formed stream, with both
handle buffers present. -/
def streamWarnRecord (s : RawStream) : LogRecord :=
  ⟨Level.warn, ("Stream ").toList ++ (toString s.id).toList
    ++ (" (remote id: ").toList ++ (toString s.remoteId).toList
    ++ (") has ").toList ++ (toString (pendingWrites s)).toList
    ++ (" pending writes: hex streamhandle: ").toList ++ hexEncode (s.handle.getD [])
    ++ (" hex socket handle: ").toList
    ++ (match s.socketHandle with
        | none => ("none").toList
        | some h => hexEncode (h.getD []))⟩

/-- The catch-all warning of src/bin.js line 266. -/
def monitorCatchWarn (e : Err) : LogRecord :=
  ⟨Level.warn, ("logStreams errored unexpectedly: ").toList ++ errStack e⟩

/-- The rollup warning of src/bin.js line 262. -/
def rollupWarn (n : Nat) : LogRecord :=
  ⟨Level.warn, ("Total streams with many pending writes: ").toList ++ (toString n).toList⟩

/-- Loop body of the sampling tick (src/bin.js lines 251-260): walks the
streams, counts and warns on each stream with at least 100 pending writes;
the counter is incremented before the warn renders, and a rendering
failure aborts the loop with the logs emitted so far. -/
def tickGo : List RawStream → Nat → List LogRecord × Option Err × Nat
  | [], nr => ([], none, nr)
  | s :: rest, nr =>
    if 100 ≤ pendingWrites s then
      match renderStreamWarn s with
      | Except.error e => ([], some e, nr + 1)
      | Except.ok w =>
        match tickGo rest (nr + 1) with
        | (logs, err, nr2) => (w :: logs, err, nr2)
    else tickGo rest nr

/-- One 30-second tick of the log-streams monitor (src/bin.js lines
249-268): the whole body is wrapped in try-catch, so an enumeration error
or a sampling error yields one catch-all warning instead of a crash; the
rollup warning is emitted only when at least one stream reached the
threshold. -/
def logStreamsTick (enumeration : Except Err (List RawStream)) : List LogRecord :=
  match enumeration with
  | Except.error e => [monitorCatchWarn e]
  | Except.ok streams =>
    match tickGo streams 0 with
    | (logs, some e, _) => logs ++ [monitorCatchWarn e]
    | (logs, none, nr) => logs ++ (if 0 < nr then [rollupWarn nr] else [])

/-- Sampling interval of the monitor in milliseconds (src/bin.js line 268). -/
def logStreamsIntervalMs : Nat := 30000

/-- Well-formed live stream: its handle buffers are present, so rendering
cannot throw. -/
def RawStream.wf (s : RawStream) : Bool :=
  s.handle.isSome && (match s.socketHandle with
    | none => true
    | some h => h.isSome)

theorem hexEncode_length (bs : List Nat) : (hexEncode bs).length = 2 * bs.length := by
  induction bs with
  | nil => rfl
  | cons b rest ih =>
    simp only [hexEncode, List.flatMap_cons, List.length_append, List.length_cons,
      List.length_nil, List.length_cons] at ih ⊢
    omega

theorem toBits_length (bs : List Nat) : (toBits bs).length = 8 * bs.length := by
  induction bs with
  | nil => rfl
  | cons b rest ih =>
    simp only [toBits, List.flatMap_cons, List.length_append] at ih ⊢
    simp only [byteToBits, List.length_cons, List.length_nil, List.length_cons]
    omega

theorem chunks5_length (l : List Bool) : (chunks5 l).length = (l.length + 4) / 5 := by
  induction l using chunks5.induct with
  | case1 => rfl
  | case2 a => simp [chunks5]
  | case3 a b => simp [chunks5]
  | case4 a b c => simp [chunks5]
  | case5 a b c d => simp [chunks5]
  | case6 a b c d e rest ih =>
    simp only [chunks5, List.length_cons]
    rw [ih]
    omega

theorem z32encode_length (bs : List Nat) :
    (z32encode bs).length = (8 * bs.length + 4) / 5 := by
  unfold z32encode
  rw [List.length_map, chunks5_length, toBits_length]

theorem renderStreamWarn_wf (s : RawStream) (h : s.wf = true) :
    renderStreamWarn s = Except.ok (streamWarnRecord s) := by
  rcases s with ⟨i, ri, wq, wf', hd, sh⟩
  unfold RawStream.wf at h
  simp only [Bool.and_eq_true] at h
  rcases h with ⟨h1, h2⟩
  cases hd with
  | none => simp at h1
  | some hb =>
    cases sh with
    | none => rfl
    | some shOpt =>
      cases shOpt with
      | none => simp at h2
      | some sb => rfl

theorem tickGo_wf (streams : List RawStream) (nr : Nat)
    (h : ∀ s ∈ streams, s.wf = true) :
    tickGo streams nr =
      ((streams.filter (fun s => decide (100 ≤ pendingWrites s))).map streamWarnRecord,
       none,
       nr + (streams.filter (fun s => decide (100 ≤ pendingWrites s))).length) := by
  induction streams generalizing nr with
  | nil => rfl
  | cons s rest ih =>
    have hs : s.wf = true := h s (List.mem_cons_self s rest)
    have hrest : ∀ t ∈ rest, t.wf = true := fun t ht => h t (List.mem_cons_of_mem s ht)
    by_cases hp : 100 ≤ pendingWrites s
    · simp only [tickGo, if_pos hp, renderStreamWarn_wf s hs, ih (nr + 1) hrest]
      simp [List.filter_cons, hp, Prod.ext_iff]
      omega
    · simp only [tickGo, if_neg hp, ih nr hrest]
      simp [List.filter_cons, hp]

theorem replSetup_ok_shape (flags : Flags) (rs : List Step)
    (h : replSetup flags = Except.ok rs) :
    rs = if jsTruthyStr flags.repl then [Step.replStart none] else [] := by
  unfold replSetup at h
  by_cases ht : jsTruthyStr flags.repl = true
  · rw [if_pos ht] at h
    rw [if_pos ht]
    cases hd : idEncDecode flags.repl with
    | error e => rw [hd] at h; simp [Except.map] at h
    | ok b => rw [hd] at h; simp [Except.map] at h; exact h.symm
  · rw [if_neg ht] at h
    rw [if_neg ht]
    simp at h
    exact h

/-- C1: in every execution of the registered shutdown callback, when an
instrumentation handle exists its awaited close completes strictly before
the engine close begins, and when no handle exists the callback performs
the engine close alone, with no instrumentation close events. -/
theorem C1_shutdown_ordering (instr : Option Unit) :
    (instr.isSome = true →
      shutPrecedes (execGoodbye instr) ShutEvent.instrCloseEnd ShutEvent.engineCloseStart)
    ∧ (instr = none →
      ShutEvent.instrCloseStart ∉ execGoodbye instr
      ∧ ShutEvent.instrCloseEnd ∉ execGoodbye instr
      ∧ ShutEvent.engineCloseStart ∈ execGoodbye instr
      ∧ ShutEvent.engineCloseEnd ∈ execGoodbye instr) := by
  cases instr with
  | none =>
    exact ⟨fun hcontra => by simp at hcontra, fun _ => by decide⟩
  | some u =>
    cases u
    exact ⟨fun _ => by decide, fun hcontra => by simp at hcontra⟩

/-- Witness for C1 at a present instrumentation handle. -/
theorem C1_shutdown_ordering_witness :
    shutPrecedes (execGoodbye (some ())) ShutEvent.instrCloseEnd ShutEvent.engineCloseStart :=
  (C1_shutdown_ordering (some ())).1 rfl

/-- C2 counterexample: the delete-blocked handler, fed a payload whose key
field is missing, throws the invalid-key error out of the handler instead
of producing an error-level log record. -/
theorem C2_counterexample :
    deleteBlockedHandler (some ⟨some (List.replicate 32 1)⟩) (some ⟨none⟩)
      = Except.error Err.invalidKeyEncoding := by
  decide

/-- C2 amended: only the add-new-core, downgrade-announce and
add-cores-downgrade-announce handlers are wrapped in try-catch, so once
their payload object is bound no failure escapes them and the failure is
logged instead, at info level for add-new-core and at error level for the
downgrade handlers; handlers without a try-catch, such as delete-blocked,
let the failure propagate out of the handler. -/
theorem C2_handler_crash_safety :
    (∀ r s, (addNewCoreHandler r s).isOk = true)
    ∧ (∀ p, (downgradeAnnounceHandler (some p)).isOk = true)
    ∧ (∀ q, (addCoresDowngradeAnnounceHandler (some q)).isOk = true)
    ∧ (∀ s, addNewCoreHandler none s
        = Except.ok [⟨Level.info, ("Invalid add-core request received: ").toList
            ++ errStack Err.typeError⟩,
          ⟨Level.info, renderRecordObject none⟩])
    ∧ (∀ st, (deleteBlockedHandler st (some ⟨none⟩)).isOk = false) := by
  refine ⟨?_, ?_, ?_, ?_, ?_⟩
  · intro r s
    unfold addNewCoreHandler
    cases addNewCoreTry r s <;> rfl
  · intro p
    simp only [downgradeAnnounceHandler]
    split <;> rfl
  · intro q
    simp only [addCoresDowngradeAnnounceHandler]
    split <;> rfl
  · intro s
    rfl
  · intro st
    cases st with
    | none => rfl
    | some si =>
      simp only [deleteBlockedHandler, streamToStr]
      cases h : idEncNormalize si.remotePublicKey with
      | error e => rfl
      | ok v => rfl

/-- C5 counterexample: for a concrete peer key the swarm ban handler logs
the hex form while the stream handlers log the z-base-32 form, so the same
peer does not log identically across events. -/
theorem C5_counterexample :
    streamToStr (some ⟨some (List.replicate 32 0)⟩)
      = Except.ok (z32encode (List.replicate 32 0))
    ∧ banKeyRender (List.replicate 32 0) ≠ z32encode (List.replicate 32 0) := by
  exact ⟨by rfl, by decide⟩

/-- C5 amended: the stream and delete handlers all render keys through the
single canonicalization idEncNormalize, yielding the z-base-32 form, but
the swarm ban handler renders the peer public key as hex, which differs
from the canonical form for every 32-byte key. -/
theorem C5_key_rendering (pk : List Nat) (h : pk.length = 32) :
    streamToStr (some ⟨some pk⟩) = Except.ok (z32encode pk)
    ∧ idEncNormalize (some pk) = Except.ok (z32encode pk)
    ∧ banKeyRender pk ≠ z32encode pk := by
  have hn : idEncNormalize (some pk) = Except.ok (z32encode pk) := by
    simp [idEncNormalize, h]
  refine ⟨hn, hn, ?_⟩
  intro heq
  have hlen : (hexEncode pk).length = (z32encode pk).length := by
    simpa [banKeyRender] using congrArg List.length heq
  rw [hexEncode_length, z32encode_length, h] at hlen
  omega

/-- Witness for C5 at a concrete 32-byte key. -/
theorem C5_key_rendering_witness :
    (List.replicate 32 7).length = 32
    ∧ banKeyRender (List.replicate 32 7) ≠ z32encode (List.replicate 32 7) :=
  ⟨by decide, (C5_key_rendering (List.replicate 32 7) (by decide)).2.2⟩

/-- C7 counterexample: the empty string is a supplied alias of length
below 100, yet it is not used unmodified; being falsy it is replaced by
the derived default alias. -/
theorem C7_counterexample :
    ([] : List Char).length < 100
    ∧ resolvePrometheusAlias (some []) (List.replicate 32 0) ≠ Except.ok [] := by
  exact ⟨by decide, by decide⟩

/-- C7 amended: a supplied alias of length at least 100 makes the
instrumentation setup throw the alias-length error, a supplied non-empty
alias shorter than 100 characters is used unmodified, and an absent or
empty alias is replaced by a default derived deterministically from the
node public key, of length at most 99. -/
theorem C7_alias_resolution (s : List Char) (pk : List Nat) (hpk : pk.length = 32) :
    (100 ≤ s.length → resolvePrometheusAlias (some s) pk = Except.error Err.aliasTooLong)
    ∧ (s ≠ [] → s.length < 100 → resolvePrometheusAlias (some s) pk = Except.ok s)
    ∧ (∃ d : List Char, resolvePrometheusAlias none pk = Except.ok d ∧ d.length ≤ 99) := by
  refine ⟨?_, ?_, ?_⟩
  · intro h100
    have hne : s ≠ [] := by
      intro he
      rw [he] at h100
      simp at h100
    have ht : jsTruthyStr (some s) = true := by
      cases s with
      | nil => exact absurd rfl hne
      | cons c t => rfl
    have hd : decide (99 < s.length) = true := decide_eq_true (by omega)
    simp [resolvePrometheusAlias, ht, hd]
  · intro hne hlt
    have ht : jsTruthyStr (some s) = true := by
      cases s with
      | nil => exact absurd rfl hne
      | cons c t => rfl
    have hd : decide (99 < s.length) = false := decide_eq_false (by omega)
    simp [resolvePrometheusAlias, ht, hd]
  · have hn : idEncNormalize (some pk) = Except.ok (z32encode pk) := by
      simp [idEncNormalize, hpk]
    refine ⟨(("blind-peer-").toList ++ z32encode pk).take 99, ?_, ?_⟩
    · simp [resolvePrometheusAlias, jsTruthyStr, hn]
    · rw [List.length_take]
      exact Nat.min_le_left _ _

/-- Witness for C7 at a 100-character alias and a concrete public key. -/
theorem C7_alias_resolution_witness :
    100 ≤ (List.replicate 100 'a').length
    ∧ resolvePrometheusAlias (some (List.replicate 100 'a')) (List.replicate 32 0)
      = Except.error Err.aliasTooLong :=
  ⟨by decide,
   (C7_alias_resolution (List.replicate 100 'a') (List.replicate 32 0) (by decide)).1
     (by decide)⟩

/-- C3 counterexample: with the non-numeric max-storage input abc the
derived budget is NaN, no InvalidConfiguration failure occurs, and the
startup completes normally with the NaN budget. -/
theorem C3_counterexample :
    maxBytesOf (some (("abc").toList)) = none
    ∧ (run { maxStorage := some (("abc").toList) } (List.replicate 32 0)).outcome = none
    ∧ (run { maxStorage := some (("abc").toList) } (List.replicate 32 0)).budget = none := by
  exact ⟨by rfl, by rfl, by rfl⟩

/-- C3 amended: a positive-integer max-storage input yields a budget of
exactly input times 1,000,000 bytes and an absent flag yields the
100,000 MB default, but a non-numeric input silently yields a NaN budget:
configuration resolution does not fail and the startup completes. -/
theorem C3_max_storage (s : List Char) (n : Int)
    (hs : jsTruthyStr (some s) = true) :
    (jsParseInt s = some n → maxBytesOf (some s) = some (1000000 * n))
    ∧ (jsParseInt s = none →
        maxBytesOf (some s) = none
        ∧ (run { maxStorage := some s } (List.replicate 32 0)).outcome = none)
    ∧ maxBytesOf none = some 100000000000 := by
  refine ⟨?_, ?_, by rfl⟩
  · intro hp
    simp [maxBytesOf, hs, hp]
  · intro hp
    exact ⟨by simp [maxBytesOf, hs, hp], by rfl⟩

/-- Witness for C3 at the max-storage input 50000. -/
theorem C3_max_storage_witness :
    maxBytesOf (some (("50000").toList)) = some (1000000 * 50000) :=
  (C3_max_storage (("50000").toList) 50000 (by decide)).1 (by decide)

/-- C6 counterexample: a stream with exactly 100 outstanding writes does
not exceed the threshold 100, yet the sampling tick emits a per-stream
warning for it and counts it in the rollup. -/
theorem C6_counterexample :
    ¬ 100 < pendingWrites ⟨1, 2, 100, 0, some [], none⟩
    ∧ logStreamsTick (Except.ok [⟨1, 2, 100, 0, some [], none⟩])
      = [streamWarnRecord ⟨1, 2, 100, 0, some [], none⟩, rollupWarn 1] := by
  decide

/-- C6 amended: on each sampling tick over well-formed streams, a warning
is emitted exactly for the streams with at least 100 outstanding writes,
the rollup warning reports their number and appears only when that number
is positive, and an enumeration error is caught and logged as a single
warning instead of crashing. -/
theorem C6_stream_monitor (streams : List RawStream)
    (h : ∀ s ∈ streams, s.wf = true) :
    logStreamsTick (Except.ok streams)
      = (streams.filter (fun s => decide (100 ≤ pendingWrites s))).map streamWarnRecord
        ++ (if 0 < (streams.filter (fun s => decide (100 ≤ pendingWrites s))).length
            then [rollupWarn (streams.filter (fun s => decide (100 ≤ pendingWrites s))).length]
            else [])
    ∧ (∀ e, logStreamsTick (Except.error e) = [monitorCatchWarn e]) := by
  refine ⟨?_, fun e => rfl⟩
  simp only [logStreamsTick, tickGo_wf streams 0 h]
  simp

/-- Witness for C6 at a two-stream sample with one saturated stream. -/
theorem C6_stream_monitor_witness :
    logStreamsTick (Except.ok [⟨1, 2, 333, 3, some [], none⟩, ⟨4, 5, 0, 0, some [], none⟩])
      = [streamWarnRecord ⟨1, 2, 333, 3, some [], none⟩, rollupWarn 1] := by
  have h := C6_stream_monitor
    [⟨1, 2, 333, 3, some [], none⟩, ⟨4, 5, 0, 0, some [], none⟩] (by decide)
  rw [h.1]
  decide

/-- C8: the auto-shutdown delay equals m times (1 + r/5); for every draw
r in [0,1) it lies within [m, 1.2 m]; and the timer callback performs the
same registered goodbye shutdown path that a termination signal performs,
not a separate teardown. -/
theorem C8_auto_shutdown (m r : ℚ) (instr : Option Unit)
    (hm : 0 ≤ m) (h0 : 0 ≤ r) (h1 : r < 1) :
    autoShutdownDelayMinutes m r = m * (1 + r / 5)
    ∧ m ≤ autoShutdownDelayMinutes m r
    ∧ autoShutdownDelayMinutes m r ≤ m * (12 / 10)
    ∧ autoShutdownFire instr
      = ShutEvent.logLine Level.warn (("Auto-shutdown triggered. Shutting down...").toList)
        :: signalShutdown instr := by
  refine ⟨rfl, ?_, ?_, rfl⟩
  · unfold autoShutdownDelayMinutes
    nlinarith [mul_nonneg hm h0]
  · unfold autoShutdownDelayMinutes
    nlinarith [mul_nonneg hm (by linarith : (0:ℚ) ≤ 1 - r)]

/-- Witness for C8 at ten configured minutes and the draw one half. -/
theorem C8_auto_shutdown_witness :
    (10:ℚ) ≤ autoShutdownDelayMinutes 10 (1/2)
    ∧ autoShutdownDelayMinutes 10 (1/2) ≤ 10 * (12/10) :=
  ⟨(C8_auto_shutdown 10 (1/2) none (by norm_num) (by norm_num) (by norm_num)).2.1,
   (C8_auto_shutdown 10 (1/2) none (by norm_num) (by norm_num) (by norm_num)).2.2.1⟩

theorem run_trace_after (flags : Flags) (ownPk : List Nat) (keys : List (List Nat))
    (rs : List Step)
    (h1 : idEncDecodeAll flags.trustedPeer = Except.ok keys)
    (h2 : replSetup flags = Except.ok rs) :
    ∃ rest : List Step,
      (run flags ownPk).trace = preListenTrace flags rs ++ rest
      ∧ (∀ v, Step.replStart v ∉ rest)
      ∧ Step.engineReady ∉ rest
      ∧ Step.constructEngine ∉ rest
      ∧ Step.engineListen ∉ rest := by
  simp only [run, h1, h2]
  cases ha : jsTruthyStr flags.autodiscoveryRpcKey with
  | true =>
    refine ⟨[], by simp, ?_, ?_, ?_, ?_⟩ <;> simp
  | false =>
    cases hs : jsTruthyStr flags.scraperPublicKey with
    | false =>
      refine ⟨(if jsTruthyStr flags.autoShutdownMinutes
          then [Step.scheduleAutoShutdown] else []), by simp, ?_, ?_, ?_, ?_⟩ <;>
        cases hsd : jsTruthyStr flags.autoShutdownMinutes <;> simp
    | true =>
      cases h3 : idEncDecode flags.scraperPublicKey with
      | error e => exact ⟨[], by simp, by simp, by simp, by simp, by simp⟩
      | ok pk =>
        cases h4 : idEncDecode flags.scraperSecret with
        | error e => exact ⟨[], by simp, by simp, by simp, by simp, by simp⟩
        | ok sec =>
          cases h5 : resolvePrometheusAlias flags.scraperAlias ownPk with
          | error e => exact ⟨[], by simp, by simp, by simp, by simp, by simp⟩
          | ok alia =>
            refine ⟨[Step.constructInstrumentation, Step.instrumentationReady]
              ++ (if jsTruthyStr flags.autoShutdownMinutes
                  then [Step.scheduleAutoShutdown] else []),
              by simp, ?_, ?_, ?_, ?_⟩ <;>
              cases hsd : jsTruthyStr flags.autoShutdownMinutes <;> simp

/-- C4 counterexample: with the autodiscovery flag supplied the process
does fail with the unsupported-feature error, but only after the engine
has been constructed and is listening, not before engine construction. -/
theorem C4_counterexample :
    (run { autodiscoveryRpcKey := some (("k").toList) } (List.replicate 32 0)).outcome
      = some Err.unsupportedAutodiscovery
    ∧ Step.constructEngine
        ∈ (run { autodiscoveryRpcKey := some (("k").toList) } (List.replicate 32 0)).trace
    ∧ Step.engineListen
        ∈ (run { autodiscoveryRpcKey := some (("k").toList) } (List.replicate 32 0)).trace := by
  decide

/-- C4 amended: whenever the autodiscovery flag is supplied and startup
survives the earlier key decodes, the run fails fatally with the
unsupported-feature error, but only after engine construction, ready and
listen, and no instrumentation is constructed. -/
theorem C4_autodiscovery_guard (flags : Flags) (ownPk : List Nat)
    (htrust : (idEncDecodeAll flags.trustedPeer).isOk = true)
    (hrepl : (replSetup flags).isOk = true)
    (hauto : jsTruthyStr flags.autodiscoveryRpcKey = true) :
    (run flags ownPk).outcome = some Err.unsupportedAutodiscovery
    ∧ Step.constructEngine ∈ (run flags ownPk).trace
    ∧ Step.engineReady ∈ (run flags ownPk).trace
    ∧ Step.engineListen ∈ (run flags ownPk).trace
    ∧ Step.constructInstrumentation ∉ (run flags ownPk).trace := by
  cases h1 : idEncDecodeAll flags.trustedPeer with
  | error e => rw [h1] at htrust; simp [Except.isOk, Except.toBool] at htrust
  | ok keys =>
  cases h2 : replSetup flags with
  | error e => rw [h2] at hrepl; simp [Except.isOk, Except.toBool] at hrepl
  | ok rs =>
  have hrs := replSetup_ok_shape flags rs h2
  cases hr : jsTruthyStr flags.repl <;> cases hl : flags.logStreams <;>
    simp [run, h1, h2, hauto, hrs, hr, hl, preListenTrace]

/-- Witness for C4 with only the autodiscovery flag supplied. -/
theorem C4_autodiscovery_guard_witness :
    (run { autodiscoveryRpcKey := some (("key").toList) } (List.replicate 32 0)).outcome
      = some Err.unsupportedAutodiscovery
    ∧ Step.constructEngine
        ∈ (run { autodiscoveryRpcKey := some (("key").toList) } (List.replicate 32 0)).trace
    ∧ Step.engineReady
        ∈ (run { autodiscoveryRpcKey := some (("key").toList) } (List.replicate 32 0)).trace
    ∧ Step.engineListen
        ∈ (run { autodiscoveryRpcKey := some (("key").toList) } (List.replicate 32 0)).trace
    ∧ Step.constructInstrumentation
        ∉ (run { autodiscoveryRpcKey := some (("key").toList) } (List.replicate 32 0)).trace :=
  C4_autodiscovery_guard { autodiscoveryRpcKey := some (("key").toList) }
    (List.replicate 32 0) (by rfl) (by rfl) (by rfl)

/-- C9: whenever the scraper public key is supplied and decodes but the
scraper secret is absent, the startup throws the invalid-key error while
decoding the missing secret, and only after the engine has been
constructed, readied and is listening; no instrumentation is constructed. -/
theorem C9_scraper_secret_missing (flags : Flags) (ownPk : List Nat)
    (htrust : (idEncDecodeAll flags.trustedPeer).isOk = true)
    (hrepl : (replSetup flags).isOk = true)
    (hauto : jsTruthyStr flags.autodiscoveryRpcKey = false)
    (hskey : jsTruthyStr flags.scraperPublicKey = true)
    (hsdec : (idEncDecode flags.scraperPublicKey).isOk = true)
    (hsec : flags.scraperSecret = none) :
    (run flags ownPk).outcome = some Err.invalidKeyEncoding
    ∧ Step.constructEngine ∈ (run flags ownPk).trace
    ∧ Step.engineReady ∈ (run flags ownPk).trace
    ∧ Step.engineListen ∈ (run flags ownPk).trace
    ∧ Step.constructInstrumentation ∉ (run flags ownPk).trace := by
  cases h1 : idEncDecodeAll flags.trustedPeer with
  | error e => rw [h1] at htrust; simp [Except.isOk, Except.toBool] at htrust
  | ok keys =>
  cases h2 : replSetup flags with
  | error e => rw [h2] at hrepl; simp [Except.isOk, Except.toBool] at hrepl
  | ok rs =>
  cases h3 : idEncDecode flags.scraperPublicKey with
  | error e => rw [h3] at hsdec; simp [Except.isOk, Except.toBool] at hsdec
  | ok pk =>
  have hrs := replSetup_ok_shape flags rs h2
  have hne : idEncDecode flags.scraperSecret = Except.error Err.invalidKeyEncoding := by
    rw [hsec]
    rfl
  cases hr : jsTruthyStr flags.repl <;> cases hl : flags.logStreams <;>
    simp [run, h1, h2, hauto, hskey, h3, hne, hrs, hr, hl, preListenTrace]

/-- Witness for C9 with a decodable scraper public key and no secret. -/
theorem C9_scraper_secret_missing_witness :
    (run { scraperPublicKey := some (List.replicate 64 'a') } (List.replicate 32 0)).outcome
      = some Err.invalidKeyEncoding
    ∧ Step.constructEngine
        ∈ (run { scraperPublicKey := some (List.replicate 64 'a') } (List.replicate 32 0)).trace
    ∧ Step.engineReady
        ∈ (run { scraperPublicKey := some (List.replicate 64 'a') } (List.replicate 32 0)).trace
    ∧ Step.engineListen
        ∈ (run { scraperPublicKey := some (List.replicate 64 'a') } (List.replicate 32 0)).trace
    ∧ Step.constructInstrumentation
        ∉ (run { scraperPublicKey := some (List.replicate 64 'a') } (List.replicate 32 0)).trace :=
  C9_scraper_secret_missing { scraperPublicKey := some (List.replicate 64 'a') }
    (List.replicate 32 0) (by rfl) (by rfl) (by rfl) (by rfl) (by decide) (by rfl)

/-- C10: whenever a repl seed is supplied and decodes, the debug console
starts before the engine ready step and before any instrumentation
construction, and the instrumentation reference handed to it is null,
even in runs that later construct an instrumentation handle. -/
theorem C10_repl_gets_null_instrumentation (flags : Flags) (ownPk : List Nat)
    (htrust : (idEncDecodeAll flags.trustedPeer).isOk = true)
    (hre : jsTruthyStr flags.repl = true)
    (hrd : (idEncDecode flags.repl).isOk = true) :
    precedes (run flags ownPk).trace (Step.replStart none) Step.engineReady
    ∧ Step.replStart (some ()) ∉ (run flags ownPk).trace
    ∧ (Step.constructInstrumentation ∈ (run flags ownPk).trace →
        precedes (run flags ownPk).trace (Step.replStart none)
          Step.constructInstrumentation) := by
  cases h1 : idEncDecodeAll flags.trustedPeer with
  | error e => rw [h1] at htrust; simp [Except.isOk, Except.toBool] at htrust
  | ok keys =>
  cases hd : idEncDecode flags.repl with
  | error e => rw [hd] at hrd; simp [Except.isOk, Except.toBool] at hrd
  | ok sd =>
  have h2 : replSetup flags = Except.ok [Step.replStart none] := by
    simp [replSetup, hre, hd, Except.map]
  obtain ⟨rest, htr, hnr, hner, hnce, hnel⟩ :=
    run_trace_after flags ownPk keys [Step.replStart none] h1 h2
  cases hl : flags.logStreams with
  | false =>
    have hP : preListenTrace flags [Step.replStart none]
        = [Step.constructEngine, Step.registerShutdownHook, Step.replStart none,
           Step.engineReady, Step.engineListen] := by
      simp [preListenTrace, hl]
    rw [hP] at htr
    rw [htr]
    refine ⟨⟨?_, ?_, ?_⟩, ?_, ?_⟩
    · exact List.mem_append.mpr (Or.inl (by decide))
    · exact List.mem_append.mpr (Or.inl (by decide))
    · rw [List.indexOf_append_of_mem (by decide), List.indexOf_append_of_mem (by decide)]
      decide
    · intro hmem
      rcases List.mem_append.mp hmem with hin | hin
      · exact absurd hin (by decide)
      · exact hnr (some ()) hin
    · intro hci
      rcases List.mem_append.mp hci with hin | hin
      · exact absurd hin (by decide)
      · refine ⟨List.mem_append.mpr (Or.inl (by decide)), hci, ?_⟩
        rw [List.indexOf_append_of_mem (by decide),
          List.indexOf_append_of_not_mem (by decide)]
        have hidx : List.indexOf (Step.replStart none)
            [Step.constructEngine, Step.registerShutdownHook, Step.replStart none,
             Step.engineReady, Step.engineListen] = 2 := by decide
        rw [hidx]
        simp only [List.length_cons, List.length_nil]
        omega
  | true =>
    have hP : preListenTrace flags [Step.replStart none]
        = [Step.constructEngine, Step.registerShutdownHook, Step.replStart none,
           Step.engineReady, Step.startStreamMonitor, Step.engineListen] := by
      simp [preListenTrace, hl]
    rw [hP] at htr
    rw [htr]
    refine ⟨⟨?_, ?_, ?_⟩, ?_, ?_⟩
    · exact List.mem_append.mpr (Or.inl (by decide))
    · exact List.mem_append.mpr (Or.inl (by decide))
    · rw [List.indexOf_append_of_mem (by decide), List.indexOf_append_of_mem (by decide)]
      decide
    · intro hmem
      rcases List.mem_append.mp hmem with hin | hin
      · exact absurd hin (by decide)
      · exact hnr (some ()) hin
    · intro hci
      rcases List.mem_append.mp hci with hin | hin
      · exact absurd hin (by decide)
      · refine ⟨List.mem_append.mpr (Or.inl (by decide)), hci, ?_⟩
        rw [List.indexOf_append_of_mem (by decide),
          List.indexOf_append_of_not_mem (by decide)]
        have hidx : List.indexOf (Step.replStart none)
            [Step.constructEngine, Step.registerShutdownHook, Step.replStart none,
             Step.engineReady, Step.startStreamMonitor, Step.engineListen] = 2 := by decide
        rw [hidx]
        simp only [List.length_cons, List.length_nil]
        omega

/-- Flags of a run supplying a repl seed together with full scraper
credentials, so that an instrumentation handle is constructed later. -/
def replScraperFlags : Flags where
  repl := some (List.replicate 64 'a')
  scraperPublicKey := some (List.replicate 64 'b')
  scraperSecret := some (List.replicate 64 'c')
  scraperAlias := some (("x").toList)

/-- Witness for C10 in a run that also constructs instrumentation. -/
theorem C10_repl_gets_null_instrumentation_witness :
    precedes (run replScraperFlags (List.replicate 32 0)).trace
      (Step.replStart none) Step.engineReady
    ∧ Step.replStart (some ()) ∉ (run replScraperFlags (List.replicate 32 0)).trace
    ∧ (Step.constructInstrumentation ∈ (run replScraperFlags (List.replicate 32 0)).trace →
        precedes (run replScraperFlags (List.replicate 32 0)).trace
          (Step.replStart none) Step.constructInstrumentation) :=
  C10_repl_gets_null_instrumentation replScraperFlags
    (List.replicate 32 0) (by rfl) (by rfl) (by decide)

end BlindPeerCli
